import Mathlib

/-!
Shallow embedding of `membership-token/program/src/utils.rs` and proofs about it.

Modelling conventions:
* A `Pubkey` is an opaque identifier, modelled as `Nat`.
* Byte strings (`&[u8]` seeds, UTF-8 contents of `String`) are `List Nat`
  with each element a byte value.
* The environment's derivation function `Pubkey::find_program_address`
  (external SDK code) is a parameter `derive : DeriveFn` of every definition
  that calls it, so theorems quantify over every possible derivation function.
* Fallible Rust code returning `Result` becomes `Except ProgErr _`;
  a Rust panic (integer-overflow abort) becomes `Option.none`.
-/

/-- An account address: a fixed-length opaque identifier, modelled as `Nat`. -/
abbrev Pubkey := Nat

/-- One seed of a derivation path: a byte string. -/
abbrev Seed := List Nat

/-- Type of the environment-provided derivation function
`derive(seeds, program_identity) -> (address, bump)` (spec section 6);
`Pubkey::find_program_address` in the source. -/
abbrev DeriveFn := List Seed → Pubkey → Pubkey × Nat

/-- UTF-8 bytes of a string; for the ASCII prefixes used by the source the
bytes are exactly the character codes (`HOLDER_PREFIX.as_bytes()` etc.). -/
def strBytes (s : String) : List Nat := s.toList.map Char.toNat

/-- Modelled from the spec: the raw 32-byte representation of an address
(`Pubkey::as_ref` of the external SDK); an injective byte encoding. -/
def pubkeyBytes (k : Pubkey) : List Nat :=
  (List.range 32).map fun i => k / 256 ^ i % 256

/-- Modelled from the spec: the program identity `id()` declared outside
`utils.rs` (the fixed identity of this program). Its concrete value is
irrelevant to the claims; only that it is one fixed key. -/
def PROGRAM_ID : Pubkey := 1

/-- Modelled from the spec: the identity of the system program that owns
fresh accounts (external to this crate). -/
def SYSTEM_PROGRAM_ID : Pubkey := 0

/-- The constant `NAME_MAX_LEN` from the source. -/
def NAME_MAX_LEN : Nat := 40

/-- The constant `NAME_DEFAULT_SIZE` from the source. -/
def NAME_DEFAULT_SIZE : Nat := 4 + NAME_MAX_LEN

/-- The constant `DESCRIPTION_MAX_LEN` from the source. -/
def DESCRIPTION_MAX_LEN : Nat := 60

/-- The constant `DESCRIPTION_DEFAULT_SIZE` from the source. -/
def DESCRIPTION_DEFAULT_SIZE : Nat := 4 + DESCRIPTION_MAX_LEN

/-- The constant `HOLDER_PREFIX` from the source. -/
def HOLDER_PREFIX : String := "holder"

/-- The constant `HISTORY_PREFIX` from the source. -/
def HISTORY_PREFIX : String := "history"

/-- The constant `VAULT_OWNER_PREFIX` from the source. -/
def VAULT_OWNER_PREFIX : String := "mt_vault"

/-- An account record as this module sees it: address, balance (lamports),
data-buffer length and owning program. -/
structure AccountInfo where
  key : Pubkey
  lamports : Nat
  dataLen : Nat
  owner : Pubkey
deriving DecidableEq

/-- Error conditions surfaced by the embedded operations. -/
inductive ProgErr where
  | DerivedKeyInvalid
  | TransferFailed
  | AllocateFailed
  | AssignFailed
deriving DecidableEq

/-- Source `assert_derivation`: recompute `find_program_address(path, program_id)`;
if the derived key differs from the account's key, fail with
`DerivedKeyInvalid`, otherwise return the bump. -/
def assert_derivation (derive : DeriveFn) (program_id : Pubkey)
    (account : AccountInfo) (path : List Seed) : Except ProgErr Nat :=
  let kb := derive path program_id
  if kb.1 ≠ account.key then
    .error .DerivedKeyInvalid
  else
    .ok kb.2

/-- Source `find_treasury_owner_address`: derive from
`[HOLDER_PREFIX bytes, treasury_mint bytes, selling_resource bytes]`
against the program identity. -/
def find_treasury_owner_address (derive : DeriveFn)
    (treasury_mint selling_resource : Pubkey) : Pubkey × Nat :=
  derive
    [ strBytes HOLDER_PREFIX, pubkeyBytes treasury_mint,
      pubkeyBytes selling_resource]
    PROGRAM_ID

/-- Source `find_vault_owner_address`: derive from
`[VAULT_OWNER_PREFIX bytes, resource_mint bytes, store bytes]`
against the program identity. -/
def find_vault_owner_address (derive : DeriveFn)
    (resource_mint store : Pubkey) : Pubkey × Nat :=
  derive
    [ strBytes VAULT_OWNER_PREFIX, pubkeyBytes resource_mint,
      pubkeyBytes store]
    PROGRAM_ID

/-- Source `find_trade_history_address`: derive from
`[HISTORY_PREFIX bytes, wallet bytes, market bytes]`
against the program identity. -/
def find_trade_history_address (derive : DeriveFn)
    (wallet market : Pubkey) : Pubkey × Nat :=
  derive
    [ strBytes HISTORY_PREFIX, pubkeyBytes wallet, pubkeyBytes market]
    PROGRAM_ID

/-- Source `puffed_out_string`: `size - s.len()` is checked Rust `usize`
subtraction, which aborts when `s.len() > size` (modelled as `none`);
otherwise the while loop appends that many zero bytes to a copy of `s`. -/
def puffed_out_string (s : List Nat) (size : Nat) : Option (List Nat) :=
  if size < s.length then
    none
  else
    some (s ++ List.replicate (size - s.length) 0)

/-- The `usize -> u64` conversion `size.try_into()` used when building the
allocate instruction: succeeds exactly on values below `2 ^ 64`. -/
def usize_try_into_u64 (n : Nat) : Option Nat :=
  if n < 2 ^ 64 then some n else none

/-- The mutable state touched by `create_or_allocate_account_raw`:
the target account and the payer's balance. -/
structure ProvState where
  newAcc : AccountInfo
  payerBalance : Nat
deriving DecidableEq

/-- Modelled from the spec: the system transfer instruction invoked by the
provisioner (external system program). Moves `amount` lamports from the
payer to the target account; fails when the payer lacks the funds. -/
def sys_transfer (st : ProvState) (amount : Nat) : Except ProgErr ProvState :=
  if amount ≤ st.payerBalance then
    .ok { newAcc := { key := st.newAcc.key,
                      lamports := st.newAcc.lamports + amount,
                      dataLen := st.newAcc.dataLen,
                      owner := st.newAcc.owner },
          payerBalance := st.payerBalance - amount }
  else
    .error .TransferFailed

/-- Modelled from the spec: the system allocate instruction invoked by the
provisioner (external system program). Sets the data length of a fresh
(zero-length) account; on an already-conforming account (data length already
equal to the requested size) it skips without error (spec section 4.3);
on any other nonempty account it fails, never silently resizing. -/
def sys_allocate (st : ProvState) (size : Nat) : Except ProgErr ProvState :=
  if st.newAcc.dataLen = size then
    .ok st
  else if st.newAcc.dataLen = 0 then
    .ok { newAcc := { key := st.newAcc.key,
                      lamports := st.newAcc.lamports,
                      dataLen := size,
                      owner := st.newAcc.owner },
          payerBalance := st.payerBalance }
  else
    .error .AllocateFailed

/-- Modelled from the spec: the system assign instruction invoked by the
provisioner (external system program). Sets the owner of a system-owned
account; on an already-conforming account (owner already the requested
program) it skips without error (spec section 4.3); otherwise it fails. -/
def sys_assign (st : ProvState) (owner : Pubkey) : Except ProgErr ProvState :=
  if st.newAcc.owner = owner then
    .ok st
  else if st.newAcc.owner = SYSTEM_PROGRAM_ID then
    .ok { newAcc := { key := st.newAcc.key,
                      lamports := st.newAcc.lamports,
                      dataLen := st.newAcc.dataLen,
                      owner := owner },
          payerBalance := st.payerBalance }
  else
    .error .AssignFailed

/-- The top-up computed by the source:
`rent.minimum_balance(size).max(1).saturating_sub(new_account_info.lamports())`.
`minimum_balance` is the rent function read from the rent sysvar account
(environment data), passed here as a function argument. -/
def required_lamports (minimum_balance : Nat → Nat) (size balance : Nat) : Nat :=
  max (minimum_balance size) 1 - balance

/-- Source `create_or_allocate_account_raw`: compute the top-up; transfer it
from the payer when positive; then allocate `size` bytes and assign the
owner, each authorized by the signer seeds (authorization is enforced by the
environment and not modelled; the state effects and error propagation are). -/
def create_or_allocate_account_raw (program_id : Pubkey)
    (minimum_balance : Nat → Nat) (size : Nat) (st : ProvState) :
    Except ProgErr ProvState :=
  match (if required_lamports minimum_balance size st.newAcc.lamports > 0 then
          sys_transfer st (required_lamports minimum_balance size st.newAcc.lamports)
        else .ok st) with
  | .error e => .error e
  | .ok st1 =>
    match sys_allocate st1 size with
    | .error e => .error e
    | .ok st2 => sys_assign st2 program_id

/-- Source `mpl_mint_new_edition_from_master_edition_via_token`: the keys of
the fourteen `AccountInfo`s passed to `invoke_signed` alongside the built
instruction, in the source's order. `metadata_mint` is an argument of the
wrapper but is passed to the instruction builder only, not submitted as an
account, while `user_wallet` is submitted twice. -/
def mpl_submitted_keys
    (new_metadata new_edition new_mint new_mint_authority user_wallet
      token_account_owner token_account master_metadata master_edition
      edition_marker token_program system_program rent : AccountInfo) :
    List Pubkey :=
  [ new_metadata.key, new_edition.key, master_edition.key, new_mint.key,
    edition_marker.key, new_mint_authority.key, user_wallet.key,
    token_account_owner.key, token_account.key, user_wallet.key,
    master_metadata.key, token_program.key, system_program.key, rent.key]

/-- The account order claimed by spec section 4.4, written from the spec's
words for comparison with `mpl_submitted_keys`: new metadata, new edition,
new mint, new mint authority, user wallet, token-account owner, token
account, master metadata, master edition, mint of the item being copied,
edition marker, token program, system program, rent source. -/
def spec44_claimed_keys
    (new_metadata new_edition new_mint new_mint_authority user_wallet
      token_account_owner token_account master_metadata master_edition : AccountInfo)
    (metadata_mint : Pubkey)
    (edition_marker token_program system_program rent : AccountInfo) :
    List Pubkey :=
  [ new_metadata.key, new_edition.key, new_mint.key, new_mint_authority.key,
    user_wallet.key, token_account_owner.key, token_account.key,
    master_metadata.key, master_edition.key, metadata_mint,
    edition_marker.key, token_program.key, system_program.key, rent.key]

/-- A concrete account with a given key, used in witnesses and
counterexamples. -/
def acct (k : Pubkey) : AccountInfo :=
  { key := k, lamports := 0, dataLen := 0, owner := 0 }

/-- A concrete derivation function used in witnesses (any function of the
right type works; theorems quantify over all of them). -/
def deriveTest : DeriveFn := fun path pid => (100 * pid + path.length, 42)

/-- A concrete rent-minimum function used in witnesses. -/
def mbTest : Nat → Nat := fun s => s + 100

/-- A rent-minimum function that returns zero, as a rent sysvar with
`lamports_per_byte_year = 0` yields (`Rent::minimum_balance` then returns
`0` for every size). -/
def mbZero : Nat → Nat := fun _ => 0

/-- A concrete starting state for provisioner witnesses: fresh account with
a small balance. -/
def stTest : ProvState :=
  { newAcc := { key := 11, lamports := 3, dataLen := 0, owner := SYSTEM_PROGRAM_ID },
    payerBalance := 200 }

/-- The state `create_or_allocate_account_raw 9 mbTest 10 stTest` produces. -/
def stTestAfter : ProvState :=
  { newAcc := { key := 11, lamports := 110, dataLen := 10, owner := 9 },
    payerBalance := 93 }

/-- A state whose account balance (zero) already meets a zero rent minimum. -/
def stZero : ProvState :=
  { newAcc := { key := 3, lamports := 0, dataLen := 0, owner := SYSTEM_PROGRAM_ID },
    payerBalance := 5 }

/-- A state whose account data buffer is already larger than the requested
size. -/
def stBig : ProvState :=
  { newAcc := { key := 11, lamports := 500, dataLen := 20, owner := 9 },
    payerBalance := 200 }

/-- Characterization of every successful run of
`create_or_allocate_account_raw`: the resulting account keeps its key, holds
`max` of its old balance and the floored rent minimum, has exactly `size`
bytes and the program as owner; the payer paid exactly the computed top-up,
which they could afford; and the starting account was fresh or already
conforming in data length and owner. -/
theorem create_or_allocate_ok_state (pid : Pubkey) (mb : Nat → Nat) (size : Nat)
    (st st' : ProvState)
    (h : create_or_allocate_account_raw pid mb size st = .ok st') :
    st'.newAcc.key = st.newAcc.key ∧
    st'.newAcc.lamports = max st.newAcc.lamports (max (mb size) 1) ∧
    st'.newAcc.dataLen = size ∧
    st'.newAcc.owner = pid ∧
    st'.payerBalance = st.payerBalance - required_lamports mb size st.newAcc.lamports ∧
    required_lamports mb size st.newAcc.lamports ≤ st.payerBalance ∧
    (st.newAcc.dataLen = size ∨ st.newAcc.dataLen = 0) ∧
    (st.newAcc.owner = pid ∨ st.newAcc.owner = SYSTEM_PROGRAM_ID) := by
  unfold create_or_allocate_account_raw at h
  unfold required_lamports at *
  split at h
  next e heq => exact Except.noConfusion h
  next st1 heq =>
    split at h
    next e heq2 => exact Except.noConfusion h
    next st2 heq2 =>
      have hst1 : st1.newAcc.key = st.newAcc.key ∧
          st1.newAcc.dataLen = st.newAcc.dataLen ∧
          st1.newAcc.owner = st.newAcc.owner ∧
          st1.newAcc.lamports = max st.newAcc.lamports (max (mb size) 1) ∧
          st1.payerBalance =
            st.payerBalance - (max (mb size) 1 - st.newAcc.lamports) ∧
          max (mb size) 1 - st.newAcc.lamports ≤ st.payerBalance := by
        split_ifs at heq with h1
        · unfold sys_transfer at heq
          split_ifs at heq with h2
          injection heq with heq
          subst heq
          refine ⟨?_, ?_, ?_, ?_, ?_, ?_⟩ <;> (try dsimp only) <;>
            first | rfl | omega
        · injection heq with heq
          subst heq
          refine ⟨?_, ?_, ?_, ?_, ?_, ?_⟩ <;> (try dsimp only) <;>
            first | rfl | omega
      obtain ⟨e1, e2, e3, e4, e5, e6⟩ := hst1
      unfold sys_allocate at heq2
      unfold sys_assign at h
      split_ifs at heq2 with g1 g2 <;>
        [skip; skip] <;>
          (injection heq2 with heq2
           subst heq2
           split_ifs at h with f1 f2 <;>
             [skip; skip] <;>
               (injection h with h
                subst h
                try dsimp only at f1 f2 ⊢
                refine ⟨?_, ?_, ?_, ?_, ?_, ?_, ?_, ?_⟩ <;>
                  first
                    | assumption
                    | rfl
                    | exact Or.inl (e2.symm.trans g1)
                    | exact Or.inr (e2.symm.trans g2)
                    | exact Or.inl (e3.symm.trans f1)
                    | exact Or.inr (e3.symm.trans f2)))

/-- A run of `create_or_allocate_account_raw` on a state that needs no
top-up and is already at the requested size and owner is a successful
no-op. -/
theorem create_or_allocate_noop (pid : Pubkey) (mb : Nat → Nat) (size : Nat)
    (st : ProvState)
    (hreq : required_lamports mb size st.newAcc.lamports = 0)
    (hd : st.newAcc.dataLen = size)
    (ho : st.newAcc.owner = pid) :
    create_or_allocate_account_raw pid mb size st = .ok st := by
  have h1 : ¬ (required_lamports mb size st.newAcc.lamports > 0) := by omega
  have hallo : sys_allocate st size = .ok st := by
    unfold sys_allocate; rw [if_pos hd]
  have hassign : sys_assign st pid = .ok st := by
    unfold sys_assign; rw [if_pos ho]
  unfold create_or_allocate_account_raw
  rw [if_neg h1]
  simp only [hallo, hassign]

/-- Claim C1, counterexample: with fourteen pairwise-distinct keys, the
account list actually submitted by the Delegated Mint Invoker differs from
the order claimed in spec section 4.4, and it is not a list of distinct
accounts (the user wallet appears twice, while the mint of the item being
copied does not appear at all). -/
theorem C1_counterexample :
    mpl_submitted_keys (acct 1) (acct 2) (acct 3) (acct 4) (acct 5) (acct 6)
        (acct 7) (acct 8) (acct 9) (acct 11) (acct 12) (acct 13) (acct 14) ≠
      spec44_claimed_keys (acct 1) (acct 2) (acct 3) (acct 4) (acct 5) (acct 6)
        (acct 7) (acct 8) (acct 9) 10 (acct 11) (acct 12) (acct 13) (acct 14) ∧
    ¬ (mpl_submitted_keys (acct 1) (acct 2) (acct 3) (acct 4) (acct 5) (acct 6)
        (acct 7) (acct 8) (acct 9) (acct 11) (acct 12) (acct 13)
        (acct 14)).Nodup := by
  decide

/-- Claim C1 (amended): the Delegated Mint Invoker submits exactly fourteen
accounts, in the order new metadata, new edition, master edition, new mint,
edition marker, new mint authority, user wallet, token-account owner, token
account, user wallet again, master metadata, token program, system program,
rent source; the user wallet occupies both position 7 and position 10, and
the mint of the item being copied is passed to the instruction builder only,
not submitted as an account. -/
theorem C1_submitted_account_order
    (new_metadata new_edition new_mint new_mint_authority user_wallet
      token_account_owner token_account master_metadata master_edition
      edition_marker token_program system_program rent : AccountInfo) :
    mpl_submitted_keys new_metadata new_edition new_mint new_mint_authority
        user_wallet token_account_owner token_account master_metadata
        master_edition edition_marker token_program system_program rent =
      [ new_metadata.key, new_edition.key, master_edition.key, new_mint.key,
        edition_marker.key, new_mint_authority.key, user_wallet.key,
        token_account_owner.key, token_account.key, user_wallet.key,
        master_metadata.key, token_program.key, system_program.key,
        rent.key] ∧
    (mpl_submitted_keys new_metadata new_edition new_mint new_mint_authority
        user_wallet token_account_owner token_account master_metadata
        master_edition edition_marker token_program system_program
        rent).length = 14 ∧
    (mpl_submitted_keys new_metadata new_edition new_mint new_mint_authority
        user_wallet token_account_owner token_account master_metadata
        master_edition edition_marker token_program system_program
        rent).getD 6 0 = user_wallet.key ∧
    (mpl_submitted_keys new_metadata new_edition new_mint new_mint_authority
        user_wallet token_account_owner token_account master_metadata
        master_edition edition_marker token_program system_program
        rent).getD 9 0 = user_wallet.key :=
  ⟨rfl, rfl, rfl, rfl⟩

/-- Claim C2, counterexample: when the rent function returns `0` (a rent
sysvar with `lamports_per_byte_year = 0`) and the account balance is `0`,
the balance is already at the rent-exempt minimum, yet the `.max(1)` in the
source still makes the provisioner transfer one lamport from the payer
(balance 5 becomes 4), contradicting the claim that no transfer occurs when
the balance is at or above the minimum. -/
theorem C2_counterexample :
    mbZero 0 ≤ stZero.newAcc.lamports ∧
    stZero.payerBalance = 5 ∧
    create_or_allocate_account_raw 7 mbZero 0 stZero =
      .ok { newAcc := { key := 3, lamports := 1, dataLen := 0, owner := 7 },
            payerBalance := 4 } :=
  ⟨Nat.le_refl 0, rfl, rfl⟩

/-- Claim C2 (amended): on every successful run, the amount transferred from
the payer equals exactly `max(minimum(size), 1) - balance` floored at zero;
in particular, when the balance is strictly below `minimum(size)` the
transfer is exactly `minimum(size) - balance` (never more, never negative),
and when the balance is at or above `max(minimum(size), 1)` no transfer
occurs. The only deviation from the original claim is the corner case
`minimum(size) = 0` with balance `0`, where one lamport is still
transferred. -/
theorem C2_topup_amount (pid : Pubkey) (mb : Nat → Nat) (size : Nat)
    (st st' : ProvState)
    (h : create_or_allocate_account_raw pid mb size st = .ok st') :
    st'.payerBalance + required_lamports mb size st.newAcc.lamports =
      st.payerBalance ∧
    (st.newAcc.lamports < mb size →
      st.payerBalance =
        st'.payerBalance + (mb size - st.newAcc.lamports) ∧
      st'.newAcc.lamports =
        st.newAcc.lamports + (mb size - st.newAcc.lamports)) ∧
    (max (mb size) 1 ≤ st.newAcc.lamports →
      st'.payerBalance = st.payerBalance) := by
  obtain ⟨e1, e2, e3, e4, e5, e6, e7, e8⟩ :=
    create_or_allocate_ok_state pid mb size st st' h
  unfold required_lamports at *
  refine ⟨by omega, fun hlt => ⟨by omega, by omega⟩, fun hge => by omega⟩

/-- Claim C2 witness: a concrete successful run in which the balance 3 is
below the minimum 110, and the payer pays exactly 107. -/
theorem C2_topup_amount_witness :
    stTest.newAcc.lamports < mbTest 10 ∧
    stTest.payerBalance =
      stTestAfter.payerBalance + (mbTest 10 - stTest.newAcc.lamports) :=
  ⟨by decide,
    ((C2_topup_amount 9 mbTest 10 stTest stTestAfter rfl).2.1 (by decide)).1⟩

/-- Claim C3: running `create_or_allocate_account_raw` a second time with
identical arguments on the state a successful run produced (the account is
then at the target size, owner, and balance) succeeds and returns that
state unchanged: the top-up computes to zero so no funding transfer happens,
and the allocate and assign steps skip on the already-conforming account. -/
theorem C3_provisioner_idempotent (pid : Pubkey) (mb : Nat → Nat) (size : Nat)
    (st st₁ : ProvState)
    (h : create_or_allocate_account_raw pid mb size st = .ok st₁) :
    create_or_allocate_account_raw pid mb size st₁ = .ok st₁ := by
  obtain ⟨e1, e2, e3, e4, e5, e6, e7, e8⟩ :=
    create_or_allocate_ok_state pid mb size st st₁ h
  apply create_or_allocate_noop
  · unfold required_lamports
    rw [e2]
    omega
  · exact e3
  · exact e4

/-- Claim C3 witness: the concrete second call on the state produced by a
first successful call is a successful no-op. -/
theorem C3_provisioner_idempotent_witness :
    create_or_allocate_account_raw 9 mbTest 10 stTestAfter = .ok stTestAfter :=
  C3_provisioner_idempotent 9 mbTest 10 stTest stTestAfter rfl

/-- Claim C4: for every derivation function, program identity, account, and
path, `assert_derivation` succeeds (returning the bump) exactly when the
account's address equals the derived address; on any mismatch it fails with
`DerivedKeyInvalid`; and its result is always either the bump or that one
error, never any other condition. -/
theorem C4_assert_derivation_iff (derive : DeriveFn) (program_id : Pubkey)
    (account : AccountInfo) (path : List Seed) :
    ((∃ b, assert_derivation derive program_id account path = .ok b) ↔
      (derive path program_id).1 = account.key) ∧
    ((derive path program_id).1 ≠ account.key →
      assert_derivation derive program_id account path =
        .error ProgErr.DerivedKeyInvalid) ∧
    (assert_derivation derive program_id account path =
        .ok (derive path program_id).2 ∨
      assert_derivation derive program_id account path =
        .error ProgErr.DerivedKeyInvalid) := by
  unfold assert_derivation
  by_cases hk : (derive path program_id).1 = account.key
  · simp [hk]
  · simp [hk]

/-- Claim C4 witness: with a concrete derivation function, a mismatched
account fails with exactly `DerivedKeyInvalid`, and the account whose key
equals the derived address succeeds. -/
theorem C4_assert_derivation_iff_witness :
    assert_derivation deriveTest 2 (acct 5) [] =
      .error ProgErr.DerivedKeyInvalid ∧
    (∃ b, assert_derivation deriveTest 2 (acct 200) [] = .ok b) :=
  ⟨(C4_assert_derivation_iff deriveTest 2 (acct 5) []).2.1 (by decide),
    (C4_assert_derivation_iff deriveTest 2 (acct 200) []).1.mpr (by decide)⟩

/-- Claim C5: whenever the source string is longer than the target size,
`puffed_out_string` aborts (the checked subtraction underflows), returning
no string at all — neither truncated nor otherwise adjusted. -/
theorem C5_puffed_out_string_aborts (s : List Nat) (size : Nat)
    (h : size < s.length) :
    puffed_out_string s size = none := by
  unfold puffed_out_string
  rw [if_pos h]

/-- Claim C5 witness: the three-byte string from the spec example with
target size 2 aborts. -/
theorem C5_puffed_out_string_aborts_witness :
    2 < (strBytes "abc").length ∧
    puffed_out_string (strBytes "abc") 2 = none :=
  ⟨by decide, C5_puffed_out_string_aborts (strBytes "abc") 2 (by decide)⟩

/-- Claim C6: for every string of byte length at most the target size,
`puffed_out_string` returns the string followed by exactly
`target_size - length` zero bytes, and every returned string has byte
length exactly the target size. -/
theorem C6_puffed_out_string_pads (s : List Nat) (size : Nat)
    (h : s.length ≤ size) :
    puffed_out_string s size =
      some (s ++ List.replicate (size - s.length) 0) ∧
    ∀ r, puffed_out_string s size = some r → r.length = size := by
  have hn : ¬ (size < s.length) := by omega
  unfold puffed_out_string
  rw [if_neg hn]
  refine ⟨rfl, fun r hr => ?_⟩
  injection hr with hr
  subst hr
  rw [List.length_append, List.length_replicate]
  omega

/-- Claim C6 witness: `puffed_out_string "abc" 10` is `"abc"` followed by 7
zero bytes, of byte length exactly 10. -/
theorem C6_puffed_out_string_pads_witness :
    (strBytes "abc").length ≤ 10 ∧
    puffed_out_string (strBytes "abc") 10 =
      some [97, 98, 99, 0, 0, 0, 0, 0, 0, 0] ∧
    ∀ r, puffed_out_string (strBytes "abc") 10 = some r → r.length = 10 :=
  ⟨by decide,
    ((C6_puffed_out_string_pads (strBytes "abc") 10 (by decide)).1).trans
      (by decide),
    (C6_puffed_out_string_pads (strBytes "abc") 10 (by decide)).2⟩

/-- Claim C7: the provisioner never reduces the target account's balance and
never shrinks its data buffer: every successful run leaves the balance and
the data length at least what they were, and when the existing allocation is
strictly larger than the requested size the run errors instead of silently
resizing. -/
theorem C7_provisioner_never_shrinks (pid : Pubkey) (mb : Nat → Nat)
    (size : Nat) (st : ProvState) :
    (∀ st', create_or_allocate_account_raw pid mb size st = .ok st' →
      st.newAcc.lamports ≤ st'.newAcc.lamports ∧
      st.newAcc.dataLen ≤ st'.newAcc.dataLen) ∧
    (size < st.newAcc.dataLen →
      ∃ e, create_or_allocate_account_raw pid mb size st = .error e) := by
  constructor
  · intro st' h
    obtain ⟨e1, e2, e3, e4, e5, e6, e7, e8⟩ :=
      create_or_allocate_ok_state pid mb size st st' h
    constructor
    · omega
    · omega
  · intro hlt
    cases hR : create_or_allocate_account_raw pid mb size st with
    | ok st' =>
        exfalso
        obtain ⟨e1, e2, e3, e4, e5, e6, e7, e8⟩ :=
          create_or_allocate_ok_state pid mb size st st' hR
        omega
    | error e => exact ⟨e, rfl⟩

/-- Claim C7 witness: a concrete successful run does not reduce balance or
data length, and a concrete run on an account with a 20-byte buffer and a
10-byte request errors. -/
theorem C7_provisioner_never_shrinks_witness :
    (stTest.newAcc.lamports ≤ stTestAfter.newAcc.lamports ∧
      stTest.newAcc.dataLen ≤ stTestAfter.newAcc.dataLen) ∧
    ∃ e, create_or_allocate_account_raw 9 mbTest 10 stBig = .error e :=
  ⟨(C7_provisioner_never_shrinks 9 mbTest 10 stTest).1 stTestAfter rfl,
    (C7_provisioner_never_shrinks 9 mbTest 10 stBig).2 (by decide)⟩

/-- Claim C8: each derivation helper hands the environment's derivation
function the fixed ASCII purpose prefix ("holder", "mt_vault", "history"
respectively) followed by the raw bytes of its two entity keys in the listed
order, against this program's identity. -/
theorem C8_seed_paths (derive : DeriveFn)
    (treasury_mint selling_resource resource_mint store wallet market : Pubkey) :
    find_treasury_owner_address derive treasury_mint selling_resource =
      derive
        [ strBytes "holder", pubkeyBytes treasury_mint,
          pubkeyBytes selling_resource]
        PROGRAM_ID ∧
    find_vault_owner_address derive resource_mint store =
      derive
        [ strBytes "mt_vault", pubkeyBytes resource_mint, pubkeyBytes store]
        PROGRAM_ID ∧
    find_trade_history_address derive wallet market =
      derive
        [ strBytes "history", pubkeyBytes wallet, pubkeyBytes market]
        PROGRAM_ID :=
  ⟨rfl, rfl, rfl⟩

/-- Claim C9: `find_trade_history_address` is deterministic — for every
derivation function, any two calls with identical wallet and market inputs
return the identical address and bump pair. -/
theorem C9_trade_history_deterministic (derive : DeriveFn)
    (w₁ m₁ w₂ m₂ : Pubkey) (hw : w₁ = w₂) (hm : m₁ = m₂) :
    find_trade_history_address derive w₁ m₁ =
      find_trade_history_address derive w₂ m₂ := by
  subst hw
  subst hm
  rfl

/-- Claim C9 witness: two calls with the identical concrete inputs agree. -/
theorem C9_trade_history_deterministic_witness :
    find_trade_history_address deriveTest 3 4 =
      find_trade_history_address deriveTest 3 4 :=
  C9_trade_history_deterministic deriveTest 3 4 3 4 rfl rfl

/-- Claim C10: the `usize -> u64` conversion used to build the allocate
instruction succeeds on every size representable as an unsigned 64-bit
integer (every `usize` on the 64-bit target), so the `unwrap` never
panics. -/
theorem C10_size_conversion_total (n : Nat) (h : n < 2 ^ 64) :
    usize_try_into_u64 n = some n := by
  unfold usize_try_into_u64
  rw [if_pos h]

/-- Claim C10 witness: the conversion succeeds at a concrete size. -/
theorem C10_size_conversion_total_witness :
    44 < 2 ^ 64 ∧ usize_try_into_u64 44 = some 44 :=
  ⟨by decide, C10_size_conversion_total 44 (by decide)⟩
